import Mathlib

/-!
LSM9DS1 handler node: sampling cycle and start-up.

A shallow embedding of `src/lsm9ds1_handler.cpp` (`LSM9DS1::declare_ROS_params`,
`LSM9DS1::initialize`, `LSM9DS1::read_IMU`, `LSM9DS1::publish`) together with the
part of IEEE 754 binary64 arithmetic the handler uses (`std::isnan`, `*`, `/`).

* C++ `double` values are bit-exact: a sign, an 11-bit exponent field and a 52-bit
  fraction; multiplication and division round to nearest, ties to even.
* The handler object is a record of its members; every member function takes the
  object and returns the updated object together with the effects it performed
  (log entries and published messages) in program order.
* What the device driver returns from `read_all()` and what the node clock returns
  from `now()` are inputs of `read_IMU`.
-/

namespace lsm9ds1

/-! ## IEEE 754 binary64 -/

/-- A C++ double: an IEEE 754 binary64 value, held as its three bit fields
(sign bit, 11-bit biased exponent, 52-bit fraction). -/
structure Double where
  sign : Bool
  expo : Fin 2048
  frac : Fin 4503599627370496
deriving DecidableEq, Repr

namespace Double

/-- The double with the given 64-bit pattern (bit 63 sign, bits 62..52 exponent,
bits 51..0 fraction). -/
def ofBits (n : Nat) : Double :=
  ⟨decide (n / 9223372036854775808 % 2 = 1),
   ⟨n / 4503599627370496 % 2048, Nat.mod_lt _ (by decide)⟩,
   ⟨n % 4503599627370496, Nat.mod_lt _ (by decide)⟩⟩

/-- The value of std::isnan: exponent field all ones and a nonzero fraction. -/
def isnan (d : Double) : Bool := d.expo.val == 2047 && d.frac.val != 0

/-- The value of std::isinf: exponent field all ones and a zero fraction. -/
def isinf (d : Double) : Bool := d.expo.val == 2047 && d.frac.val == 0

/-- The value of std::isfinite: the exponent field is not all ones. -/
def isfinite (d : Double) : Bool := d.expo.val != 2047

/-- Positive or negative zero. -/
def iszero (d : Double) : Bool := d.expo.val == 0 && d.frac.val == 0

/-- The quiet NaN returned by an operation with a NaN operand or an invalid
operation. Which NaN (sign, payload) the hardware returns is not fixed by C++;
nothing below depends on the choice. -/
def qnan : Double := ⟨false, ⟨2047, by decide⟩, ⟨2251799813685248, by decide⟩⟩

/-- Infinity of the given sign. -/
def inf (s : Bool) : Double := ⟨s, ⟨2047, by decide⟩, ⟨0, by decide⟩⟩

/-- Zero of the given sign. -/
def zero (s : Bool) : Double := ⟨s, ⟨0, by decide⟩, ⟨0, by decide⟩⟩

/-- Integer significand of a finite double: its value is
(-1)^sign * mant * 2^(ex - 1075). -/
def mant (d : Double) : Nat :=
  if d.expo.val = 0 then d.frac.val else 4503599627370496 + d.frac.val

/-- Exponent of the integer significand, biased by 1075. -/
def ex (d : Double) : Nat := if d.expo.val = 0 then 1 else d.expo.val

/-- Position of the highest set bit of m (0 for m below 2), searched through at
most fuel bits. -/
def ilog2 : Nat → Nat → Nat
  | 0, _ => 0
  | fuel + 1, m => if m < 2 then 0 else ilog2 fuel (m / 2) + 1

/-- Drops the s low bits of m, rounding to nearest with ties to even. -/
def rne (m s : Nat) : Nat :=
  let q := m / 2 ^ s
  let r := m % 2 ^ s
  if 2 * r < 2 ^ s then q
  else if 2 ^ s < 2 * r then q + 1
  else q + q % 2

/-- The double nearest to (-1)^s * m * 2^e for a nonzero m below 2^256:
round to nearest, ties to even, with gradual underflow and overflow to
infinity. -/
def round (s : Bool) (m : Nat) (e : Int) : Double :=
  let eu : Int := (ilog2 256 m : Int) + e
  let et : Int := max eu (-1022)
  let shift : Int := et - 52 - e
  let n : Nat := if shift ≤ 0 then m * 2 ^ (-shift).toNat else rne m shift.toNat
  let bits : Nat := (et + 1022).toNat * 4503599627370496 + n
  if h : bits < 2047 * 4503599627370496 then
    ⟨s, ⟨bits / 4503599627370496, by omega⟩,
      ⟨bits % 4503599627370496, Nat.mod_lt _ (by decide)⟩⟩
  else inf s

/-- The C++ product a * b of two doubles (IEEE 754, default rounding mode). -/
def mul (a b : Double) : Double :=
  let s := xor a.sign b.sign
  if a.isnan || b.isnan then qnan
  else if a.isinf then (if b.iszero then qnan else inf s)
  else if b.isinf then (if a.iszero then qnan else inf s)
  else if a.iszero || b.iszero then zero s
  else round s (a.mant * b.mant) ((a.ex : Int) + (b.ex : Int) - 2150)

/-- The C++ quotient a / b of two doubles (IEEE 754, default rounding mode).
The quotient of the significands is taken with 128 extra bits and a sticky bit,
so that the single rounding in `round` is the correctly rounded quotient. -/
def div (a b : Double) : Double :=
  let s := xor a.sign b.sign
  if a.isnan || b.isnan then qnan
  else if a.isinf then (if b.isinf then qnan else inf s)
  else if b.isinf then zero s
  else if b.iszero then (if a.iszero then qnan else inf s)
  else if a.iszero then zero s
  else
    let num := a.mant * 2 ^ 128
    let q := num / b.mant
    let sticky := if num % b.mant = 0 then 0 else 1
    round s (2 * q + sticky) ((a.ex : Int) - (b.ex : Int) - 129)

end Double

/-- The constant M_PI of cmath, 3.14159265358979323846 as a double. -/
def M_PI : Double := Double.ofBits 0x400921FB54442D18

/-- The literal 180.0. -/
def lit_180_0 : Double := Double.ofBits 0x4066800000000000

/-- The literal 1.0. -/
def lit_1_0 : Double := Double.ofBits 0x3FF0000000000000

/-- The literal 0.0. -/
def lit_0_0 : Double := Double.ofBits 0

/-- The literal 9.8. -/
def lit_9_8 : Double := Double.ofBits 0x402399999999999A

/-- The local `deg_to_rad` of `read_IMU` (line 105): `M_PI / 180.0`. -/
def deg_to_rad : Double := Double.div M_PI lit_180_0

/-! ## Data model -/

/-- Three doubles x, y, z (the vectors of an IMU record and of the Imu
message). -/
structure Vector3 where
  x : Double
  y : Double
  z : Double
deriving DecidableEq, Repr

/-- Modelled from the spec: the declaration of `IMURecord` (device driver header)
is not among the sources. The handler reads `raw_linear_acceleration` and
`raw_angular_velocity`, each with x, y, z; the spec names magnetometer data as
the further content of a sample, which the handler never reads. -/
structure IMURecord where
  raw_linear_acceleration : Vector3
  raw_angular_velocity : Vector3
  raw_magnetic_field : Vector3
deriving DecidableEq, Repr

/-- A reading of the node clock, in nanoseconds. -/
abbrev Time := Nat

/-- The header of a message: the two fields `read_IMU` writes. -/
structure Header where
  stamp : Time
  frame_id : String
deriving DecidableEq, Repr

/-- The fields of `sensor_msgs::msg::Imu` the handler writes. The orientation and
the covariance arrays are never written by the handler and keep their default
values. -/
structure Imu where
  header : Header
  angular_velocity : Vector3
  linear_acceleration : Vector3
deriving DecidableEq, Repr

/-- Severity of a log entry. -/
inductive Level where
  | debug
  | info
  | warn
deriving DecidableEq, Repr

/-- An observable effect of the handler: a log entry (format string and its
integer arguments) or a message handed to the publisher. -/
inductive Effect where
  | log (level : Level) (text : String) (args : List Nat)
  | publish (msg : Imu)
deriving DecidableEq, Repr

/-- A call into the device driver `LSM9DS1_Device`, with its arguments. -/
inductive DeviceCall where
  | construct (bus_index i2c_address_accelgyro i2c_address_mag : Fin 256)
  | configure_accel (scale rate : Fin 256)
  | configure_gyro (scale rate : Fin 256)
  | configure_mag (scale rate : Fin 256) (flag : Bool)
  | calibrate_accelgyro
deriving DecidableEq, Repr

/-- The parameters of the node. `frequency` is the configured value of the node
parameter, a 64-bit integer; line 41 stores it into a C++ int (`narrow_int`). The
byte parameters are the uint8_t values lines 42-50 obtain. -/
structure Params where
  frequency : Int
  i2c_interface : Fin 256
  i2c_address_mag : Fin 256
  i2c_address_accelgyro : Fin 256
  accel_rate : Fin 256
  accel_scale : Fin 256
  gyro_rate : Fin 256
  gyro_scale : Fin 256
  mag_rate : Fin 256
  mag_scale : Fin 256
deriving DecidableEq, Repr

/-- The publisher handle: topic name and queue depth given to
`create_publisher`. -/
structure Publisher where
  topic : String
  depth : Nat
deriving DecidableEq, Repr

/-- The wall timer handle: the period in milliseconds given to
`create_wall_timer`; its callback is `read_IMU`. -/
structure Timer where
  period_ms : Int
deriving DecidableEq, Repr

/-- The state of the handler object: its members and the `lastGoodIMURecord`
optional (declared outside this file). `lsm9ds1_device_` holds the driver calls
made on the device so far; a null pointer is `none`. -/
structure LSM9DS1 where
  imu_name_ : String
  node_ : Option Params
  lsm9ds1_device_ : Option (List DeviceCall)
  publisher_ : Option Publisher
  timer_ : Option Timer
  telemetry_msg_ : Imu
  lastGoodIMURecord : Option IMURecord
deriving DecidableEq, Repr

/-- A call into the middleware made by `initialize`: `create_publisher` with its
topic and queue depth (line 76), `create_wall_timer` with its period in
milliseconds (line 77). -/
inductive MiddlewareCall where
  | create_publisher (topic : String) (depth : Nat)
  | create_wall_timer (period_ms : Int)
deriving DecidableEq, Repr

/-- An exception leaving `initialize`: the runtime error of line 73, a failure
raised by a device driver call, or a failure raised by a middleware call. -/
inductive Exception where
  | runtime_error (what : String)
  | driver_failure (call : DeviceCall)
  | middleware_failure (call : MiddlewareCall)
deriving DecidableEq, Repr

/-! ## Operations -/

/-- The condition of the `if` on lines 85-86 of `read_IMU`. -/
def nan_check (imu_record : IMURecord) : Bool :=
  imu_record.raw_linear_acceleration.x.isnan || imu_record.raw_linear_acceleration.y.isnan ||
  imu_record.raw_linear_acceleration.z.isnan ||
  imu_record.raw_angular_velocity.x.isnan || imu_record.raw_angular_velocity.y.isnan ||
  imu_record.raw_angular_velocity.z.isnan

/-- `LSM9DS1::publish`: hands `telemetry_msg_` to the publisher. -/
def publish (self : LSM9DS1) : Effect := Effect.publish self.telemetry_msg_

/-- `LSM9DS1::read_IMU` (lines 80-116). `read_all` is the record the driver
returns on line 82 and `now` the clock reading of line 112. Returns the updated
object and the effects of the call in program order. -/
def read_IMU (self : LSM9DS1) (read_all : IMURecord) (now : Time) : LSM9DS1 × List Effect := Id.run do
  let mut self := self
  let mut out : List Effect := []
  let mut imu_record := read_all
  if nan_check imu_record then
    out := out ++ [Effect.log Level.warn "Invalid sensor readings detected. Using previous values." []]
    match self.lastGoodIMURecord with
    | some last => imu_record := last
    | none =>
      out := out ++ [Effect.log Level.warn "No valid previous sensor readings available." []]
      return (self, out)
  else
    self := { self with lastGoodIMURecord := some imu_record }
  self := { self with telemetry_msg_.linear_acceleration.x := imu_record.raw_linear_acceleration.x }
  self := { self with telemetry_msg_.linear_acceleration.y := imu_record.raw_linear_acceleration.y }
  self := { self with telemetry_msg_.linear_acceleration.z := imu_record.raw_linear_acceleration.z }
  let deg_to_rad := Double.div M_PI lit_180_0
  self := { self with telemetry_msg_.angular_velocity.x := Double.mul imu_record.raw_angular_velocity.x deg_to_rad }
  self := { self with telemetry_msg_.angular_velocity.y := Double.mul imu_record.raw_angular_velocity.y deg_to_rad }
  self := { self with telemetry_msg_.angular_velocity.z := Double.mul imu_record.raw_angular_velocity.z deg_to_rad }
  self := { self with telemetry_msg_.header.stamp := now }
  self := { self with telemetry_msg_.header.frame_id := "imu_link" }
  out := out ++ [publish self]
  return (self, out)

/-- The messages published among a list of effects, in order. -/
def published : List Effect → List Imu
  | [] => []
  | Effect.publish m :: es => m :: published es
  | Effect.log _ _ _ :: es => published es

/-- The warning-level log entries among a list of effects, in order. -/
def warnings : List Effect → List String
  | [] => []
  | Effect.log Level.warn t _ :: es => t :: warnings es
  | _ :: es => warnings es

/-- The timer-driven loop: one `read_IMU` invocation per element of `inputs` (the
record `read_all()` returns and the clock reading of that cycle), in order.
Returns the final object and the effects of each cycle. -/
def run (self : LSM9DS1) : List (IMURecord × Time) → LSM9DS1 × List (List Effect)
  | [] => (self, [])
  | (r, now) :: rest =>
    let step := read_IMU self r now
    let tail := run step.1 rest
    (tail.1, step.2 :: tail.2)

/-- `LSM9DS1::declare_ROS_params` (lines 19-37): creates the node and declares the
parameters with their default values. -/
def declare_ROS_params (self : LSM9DS1) : LSM9DS1 × List Effect :=
  let declared : Params :=
    { frequency := 100, i2c_interface := 1, i2c_address_mag := 0x1e,
      i2c_address_accelgyro := 0x6b, accel_rate := 0, accel_scale := 0,
      gyro_rate := 0, gyro_scale := 0, mag_rate := 0, mag_scale := 0 }
  ({ self with node_ := some declared },
   [Effect.log Level.info "initializing lsm9ds1 handler" []])

/-- The conversion of a 64-bit integer to a C++ int (32 bits, two's complement), as
on line 41: the value modulo 2^32, taken in the range -2^31 .. 2^31 - 1. -/
def narrow_int (x : Int) : Int := (x + 2147483648) % 4294967296 - 2147483648

/-- `LSM9DS1::initialize` (lines 39-78). `params` are the configured parameters
(the declared defaults unless overridden at launch). `driver_ok c` tells whether
the device driver call `c` returns normally and `middleware_ok c` whether the
middleware call `c` does; a call that does not throws out of `initialize`.
Returns the exception thrown (if any), the object as the call leaves it, and the
log entries. -/
def initialize_handler (driver_ok : DeviceCall → Bool) (middleware_ok : MiddlewareCall → Bool)
    (self : LSM9DS1) (params : Params) :
    Option Exception × LSM9DS1 × List Effect := Id.run do
  let mut self := self
  let mut out : List Effect := []
  let frequency := narrow_int params.frequency
  let bus_index := params.i2c_interface
  let i2c_address_accelgyro := params.i2c_address_accelgyro
  let i2c_address_mag := params.i2c_address_mag
  let accel_rate := params.accel_rate
  let accel_scale := params.accel_scale
  let gyro_rate := params.gyro_rate
  let gyro_scale := params.gyro_scale
  let mag_rate := params.mag_rate
  let mag_scale := params.mag_scale
  out := out ++ [Effect.log Level.debug "bus_index_ %d" [bus_index.val]]
  out := out ++ [Effect.log Level.debug "i2c_address_mag %d" [i2c_address_mag.val]]
  out := out ++ [Effect.log Level.debug "i2c_address_accelgyro %d" [i2c_address_accelgyro.val]]
  out := out ++ [Effect.log Level.debug "accel_rate %d" [accel_rate.val]]
  out := out ++ [Effect.log Level.debug "accel_scale %d" [accel_scale.val]]
  out := out ++ [Effect.log Level.debug "gyro_rate %d" [gyro_rate.val]]
  out := out ++ [Effect.log Level.debug "gyro_scale %d" [gyro_scale.val]]
  out := out ++ [Effect.log Level.debug "mag_rate %d" [mag_rate.val]]
  out := out ++ [Effect.log Level.debug "mag_scale %d" [mag_scale.val]]
  let c1 := DeviceCall.construct bus_index i2c_address_accelgyro i2c_address_mag
  if !driver_ok c1 then
    return (some (Exception.driver_failure c1), self, out)
  self := { self with lsm9ds1_device_ := some [c1] }
  let c2 := DeviceCall.configure_accel accel_scale accel_rate
  if !driver_ok c2 then
    return (some (Exception.driver_failure c2), self, out)
  self := { self with lsm9ds1_device_ := some [c1, c2] }
  let c3 := DeviceCall.configure_gyro gyro_scale gyro_rate
  if !driver_ok c3 then
    return (some (Exception.driver_failure c3), self, out)
  self := { self with lsm9ds1_device_ := some [c1, c2, c3] }
  let c4 := DeviceCall.configure_mag mag_scale mag_rate true
  if !driver_ok c4 then
    return (some (Exception.driver_failure c4), self, out)
  self := { self with lsm9ds1_device_ := some [c1, c2, c3, c4] }
  let c5 := DeviceCall.calibrate_accelgyro
  if !driver_ok c5 then
    return (some (Exception.driver_failure c5), self, out)
  self := { self with lsm9ds1_device_ := some [c1, c2, c3, c4, c5] }
  if frequency = 0 then
    return (some (Exception.runtime_error "error: frequency cannot be 0\n"), self, out)
  let m1 := MiddlewareCall.create_publisher (self.imu_name_ ++ "/imu") 10
  if !middleware_ok m1 then
    return (some (Exception.middleware_failure m1), self, out)
  self := { self with publisher_ := some { topic := self.imu_name_ ++ "/imu", depth := 10 } }
  let m2 := MiddlewareCall.create_wall_timer (Int.tdiv 1000 frequency)
  if !middleware_ok m2 then
    return (some (Exception.middleware_failure m2), self, out)
  self := { self with timer_ := some { period_ms := Int.tdiv 1000 frequency } }
  return (none, self, out)

/-- The handler object at the entry of the constructor body: `imu_name_` set from
the argument, the shared pointers null, the optional empty, the message
zero-initialised. -/
def fresh (name_ : String) : LSM9DS1 :=
  { imu_name_ := name_, node_ := none, lsm9ds1_device_ := none, publisher_ := none,
    timer_ := none,
    telemetry_msg_ :=
      { header := { stamp := 0, frame_id := "" },
        angular_velocity := ⟨lit_0_0, lit_0_0, lit_0_0⟩,
        linear_acceleration := ⟨lit_0_0, lit_0_0, lit_0_0⟩ },
    lastGoodIMURecord := none }

/-- `LSM9DS1::LSM9DS1` (lines 6-11): `declare_ROS_params()` then `initialize()`. -/
def construct (driver_ok : DeviceCall → Bool) (middleware_ok : MiddlewareCall → Bool)
    (name_ : String) (params : Params) :
    Option Exception × LSM9DS1 × List Effect :=
  let d := declare_ROS_params (fresh name_)
  let i := initialize_handler driver_ok middleware_ok d.1 params
  (i.1, i.2.1, d.2 ++ i.2.2)

/-! ## Sample inputs (the scenarios of the specification) -/

/-- A vector of zeros. -/
def vec_zero : Vector3 := ⟨lit_0_0, lit_0_0, lit_0_0⟩

/-- Scenario A: accel (1, 0, 9.8), gyro (180, 0, 0). -/
def sample_A : IMURecord :=
  { raw_linear_acceleration := ⟨lit_1_0, lit_0_0, lit_9_8⟩,
    raw_angular_velocity := ⟨lit_180_0, lit_0_0, lit_0_0⟩,
    raw_magnetic_field := vec_zero }

/-- Scenario B, first cycle: accel (1, 0, 9.8), gyro (0, 0, 0). -/
def sample_B1 : IMURecord :=
  { raw_linear_acceleration := ⟨lit_1_0, lit_0_0, lit_9_8⟩,
    raw_angular_velocity := vec_zero,
    raw_magnetic_field := vec_zero }

/-- Scenario B, second cycle: accel (NaN, 0, 9.8), gyro (0, 0, 0). -/
def sample_B2 : IMURecord :=
  { raw_linear_acceleration := ⟨Double.qnan, lit_0_0, lit_9_8⟩,
    raw_angular_velocity := vec_zero,
    raw_magnetic_field := vec_zero }

/-- A record with an infinite linear acceleration and no NaN. -/
def sample_inf : IMURecord :=
  { raw_linear_acceleration := ⟨Double.inf false, lit_0_0, lit_9_8⟩,
    raw_angular_velocity := ⟨lit_0_0, Double.inf true, lit_0_0⟩,
    raw_magnetic_field := vec_zero }

/-- Sample A with a NaN in the magnetometer field. -/
def sample_A_mag : IMURecord :=
  { sample_A with raw_magnetic_field := ⟨Double.qnan, lit_1_0, lit_0_0⟩ }

/-- A middleware whose `create_wall_timer` refuses a negative period and which
accepts every other call. -/
def refuses_negative_period : MiddlewareCall → Bool
  | MiddlewareCall.create_wall_timer period_ms => decide (0 ≤ period_ms)
  | MiddlewareCall.create_publisher _ _ => true

/-- The default parameters with the given frequency. -/
def params_with (frequency : Int) : Params :=
  { frequency := frequency, i2c_interface := 1, i2c_address_mag := 0x1e,
    i2c_address_accelgyro := 0x6b, accel_rate := 0, accel_scale := 0,
    gyro_rate := 0, gyro_scale := 0, mag_rate := 0, mag_scale := 0 }

/-! ## Summary of one cycle -/

/-- The message `read_IMU` builds on lines 101-113 from the record it settled on:
linear acceleration copied, angular velocity times `deg_to_rad`, stamp and
frame id set. -/
def conversion (r : IMURecord) (now : Time) : Imu :=
  { header := { stamp := now, frame_id := "imu_link" },
    angular_velocity :=
      ⟨Double.mul r.raw_angular_velocity.x deg_to_rad,
       Double.mul r.raw_angular_velocity.y deg_to_rad,
       Double.mul r.raw_angular_velocity.z deg_to_rad⟩,
    linear_acceleration := r.raw_linear_acceleration }

/-- The first warning of the NaN branch (line 88). -/
def warn_invalid : Effect :=
  Effect.log Level.warn "Invalid sensor readings detected. Using previous values." []

/-- The second warning of the NaN branch, when the cache is empty (line 93). -/
def warn_no_previous : Effect :=
  Effect.log Level.warn "No valid previous sensor readings available." []

/-! ## The bit search of `round` has enough fuel -/

/-- With enough fuel `ilog2` is the position of the highest set bit. -/
theorem ilog2_spec (fuel m : Nat) (hm : 0 < m) (hlt : m < 2 ^ fuel) :
    2 ^ Double.ilog2 fuel m ≤ m ∧ m < 2 ^ (Double.ilog2 fuel m + 1) := by
  induction fuel generalizing m with
  | zero => simp at hlt; omega
  | succ n ih =>
    unfold Double.ilog2
    split
    · constructor <;> simp <;> omega
    · have h2 : m / 2 < 2 ^ n := by
        rw [pow_succ] at hlt
        omega
      obtain ⟨l, u⟩ := ih (m / 2) (by omega) h2
      rw [pow_succ] at u
      constructor
      · rw [pow_succ]; omega
      · rw [pow_succ, pow_succ]; omega

/-- The integer significand has at most 53 bits. -/
theorem mant_lt (d : Double) : d.mant < 9007199254740992 := by
  have h := d.frac.isLt
  unfold Double.mant
  split <;> omega

/-- The significand product rounded by `mul` is within the fuel of `round`. -/
theorem mul_arg_lt (a b : Double) : a.mant * b.mant < 2 ^ 256 := by
  have ha := mant_lt a
  have hb := mant_lt b
  calc a.mant * b.mant ≤ 9007199254740992 * 9007199254740992 :=
        Nat.mul_le_mul ha.le hb.le
    _ < 2 ^ 256 := by norm_num

/-- The significand quotient rounded by `div` is within the fuel of `round`. -/
theorem div_arg_lt (a b : Double) :
    2 * (a.mant * 2 ^ 128 / b.mant) + (if a.mant * 2 ^ 128 % b.mant = 0 then 0 else 1)
      < 2 ^ 256 := by
  have ha := mant_lt a
  have h1 : a.mant * 2 ^ 128 / b.mant ≤ a.mant * 2 ^ 128 := Nat.div_le_self _ _
  have h2 : a.mant * 2 ^ 128 ≤ 9007199254740992 * 2 ^ 128 :=
    Nat.mul_le_mul_right _ ha.le
  have h3 : (if a.mant * 2 ^ 128 % b.mant = 0 then 0 else 1) ≤ 1 := by split <;> omega
  have h4 : 2 * (9007199254740992 * 2 ^ 128) + 1 < 2 ^ 256 := by norm_num
  omega

/-! ## Summary lemmas for one cycle -/

/-- A valid record is cached, converted and published without a warning. -/
theorem read_IMU_valid (self : LSM9DS1) (r : IMURecord) (now : Time)
    (h : nan_check r = false) :
    read_IMU self r now =
      ({ self with lastGoodIMURecord := some r, telemetry_msg_ := conversion r now },
       [Effect.publish (conversion r now)]) := by
  simp [read_IMU, h, publish, conversion, deg_to_rad, Id.run]

/-- An invalid record with a cached one: one warning, the cached record is converted
and published, the cache is kept. -/
theorem read_IMU_fallback (self : LSM9DS1) (r g : IMURecord) (now : Time)
    (h : nan_check r = true) (hc : self.lastGoodIMURecord = some g) :
    read_IMU self r now =
      ({ self with telemetry_msg_ := conversion g now },
       [warn_invalid, Effect.publish (conversion g now)]) := by
  simp [read_IMU, h, hc, publish, conversion, deg_to_rad, warn_invalid, Id.run]

/-- An invalid record with an empty cache: two warnings, nothing published, the
object unchanged. -/
theorem read_IMU_skip (self : LSM9DS1) (r : IMURecord) (now : Time)
    (h : nan_check r = true) (hc : self.lastGoodIMURecord = none) :
    read_IMU self r now = (self, [warn_invalid, warn_no_previous]) := by
  simp [read_IMU, h, hc, warn_invalid, warn_no_previous, Id.run]

/-- The cache after one cycle. -/
theorem read_IMU_cache (self : LSM9DS1) (r : IMURecord) (now : Time) :
    (read_IMU self r now).1.lastGoodIMURecord =
      if nan_check r = true then self.lastGoodIMURecord else some r := by
  cases h : nan_check r
  · simp [read_IMU_valid self r now h]
  · cases hc : self.lastGoodIMURecord with
    | none => simp [read_IMU_skip self r now h hc, hc]
    | some g => simp [read_IMU_fallback self r g now h hc, hc]

/-- The messages published by one cycle. -/
theorem read_IMU_published (self : LSM9DS1) (r : IMURecord) (now : Time) :
    published (read_IMU self r now).2 =
      if nan_check r = true then
        match self.lastGoodIMURecord with
        | some g => [conversion g now]
        | none => []
      else [conversion r now] := by
  cases h : nan_check r
  · simp [read_IMU_valid self r now h, published]
  · cases hc : self.lastGoodIMURecord with
    | none => simp [read_IMU_skip self r now h hc, published, warn_invalid, warn_no_previous]
    | some g => simp [read_IMU_fallback self r g now h hc, published, warn_invalid]

/-! ## One cycle -/

/-- C1: one invocation of `read_IMU` publishes exactly one message when the raw
record passes the NaN check or the cache holds a record, and none when the record
is invalid and the cache is empty; so never more than one. -/
theorem C1_publish_count (self : LSM9DS1) (r : IMURecord) (now : Time) :
    (published (read_IMU self r now).2).length =
        (if nan_check r = false ∨ self.lastGoodIMURecord.isSome = true then 1 else 0) ∧
      (published (read_IMU self r now).2).length ≤ 1 := by
  rw [read_IMU_published]
  cases h : nan_check r <;> cases hc : self.lastGoodIMURecord <;> simp

/-- C3: after one invocation of `read_IMU` the cache is the current record when it
passes the NaN check and is its previous value (empty stays empty, a cached record
stays the same record) otherwise. -/
theorem C3_cache_update (self : LSM9DS1) (r : IMURecord) (now : Time) :
    (read_IMU self r now).1.lastGoodIMURecord =
      (if nan_check r = false then some r else self.lastGoodIMURecord) := by
  rw [read_IMU_cache]
  cases h : nan_check r <;> simp

/-- C4: for a raw record whose six checked fields are finite, whatever the cache,
`read_IMU` publishes one message whose linear acceleration is the raw linear
acceleration and whose angular velocity is the raw angular velocity times
`M_PI / 180.0`, component by component. -/
theorem C4_conversion (self : LSM9DS1) (r : IMURecord) (now : Time)
    (hax : r.raw_linear_acceleration.x.isfinite = true)
    (hay : r.raw_linear_acceleration.y.isfinite = true)
    (haz : r.raw_linear_acceleration.z.isfinite = true)
    (hgx : r.raw_angular_velocity.x.isfinite = true)
    (hgy : r.raw_angular_velocity.y.isfinite = true)
    (hgz : r.raw_angular_velocity.z.isfinite = true) :
    ∃ msg, published (read_IMU self r now).2 = [msg] ∧
      msg.linear_acceleration.x = r.raw_linear_acceleration.x ∧
      msg.linear_acceleration.y = r.raw_linear_acceleration.y ∧
      msg.linear_acceleration.z = r.raw_linear_acceleration.z ∧
      msg.angular_velocity.x = Double.mul r.raw_angular_velocity.x (Double.div M_PI lit_180_0) ∧
      msg.angular_velocity.y = Double.mul r.raw_angular_velocity.y (Double.div M_PI lit_180_0) ∧
      msg.angular_velocity.z = Double.mul r.raw_angular_velocity.z (Double.div M_PI lit_180_0) := by
  have h : nan_check r = false := by
    simp only [Double.isfinite, bne_iff_ne, ne_eq] at hax hay haz hgx hgy hgz
    simp [nan_check, Double.isnan, hax, hay, haz, hgx, hgy, hgz]
  refine ⟨conversion r now, ?_, ?_⟩
  · rw [read_IMU_published]; simp [h]
  · simp [conversion, deg_to_rad]

/-- The value of `deg_to_rad`: 0.017453292519943295. -/
theorem deg_to_rad_bits : Double.div M_PI lit_180_0 = Double.ofBits 0x3F91DF46A2529D39 := by
  set_option maxRecDepth 100000 in decide

/-- In doubles, 180.0 * (M_PI / 180.0) is M_PI. -/
theorem mul_180_deg_to_rad : Double.mul lit_180_0 (Double.div M_PI lit_180_0) = M_PI := by
  set_option maxRecDepth 100000 in decide

/-- C4 at Scenario A: accel (1, 0, 9.8), gyro (180, 0, 0) is published with linear
acceleration (1, 0, 9.8) and angular velocity x equal to M_PI. -/
theorem C4_conversion_witness :
    sample_A.raw_linear_acceleration.x.isfinite = true ∧
    sample_A.raw_linear_acceleration.y.isfinite = true ∧
    sample_A.raw_linear_acceleration.z.isfinite = true ∧
    sample_A.raw_angular_velocity.x.isfinite = true ∧
    sample_A.raw_angular_velocity.y.isfinite = true ∧
    sample_A.raw_angular_velocity.z.isfinite = true ∧
    ∃ msg, published (read_IMU (fresh "imu") sample_A 7).2 = [msg] ∧
      msg.linear_acceleration = ⟨lit_1_0, lit_0_0, lit_9_8⟩ ∧
      msg.angular_velocity.x = M_PI := by
  refine ⟨by decide, by decide, by decide, by decide, by decide, by decide, ?_⟩
  obtain ⟨msg, hp, h1, h2, h3, h4, _, _⟩ :=
    C4_conversion (fresh "imu") sample_A 7 (by decide) (by decide) (by decide)
      (by decide) (by decide) (by decide)
  refine ⟨msg, hp, ?_, ?_⟩
  · cases hm : msg.linear_acceleration with
    | mk x y z =>
      rw [hm] at h1 h2 h3
      simp only at h1 h2 h3
      rw [h1, h2, h3]
      rfl
  · rw [h4]
    exact mul_180_deg_to_rad

/-- C6 (claim as stated fails): with an empty cache and a NaN in the raw record, one
invocation of `read_IMU` emits two warning entries, not at most one. -/
theorem C6_counterexample :
    nan_check sample_B2 = true ∧ (fresh "imu").lastGoodIMURecord = none ∧
    warnings (read_IMU (fresh "imu") sample_B2 0).2 =
      ["Invalid sensor readings detected. Using previous values.",
       "No valid previous sensor readings available."] ∧
    ¬ (warnings (read_IMU (fresh "imu") sample_B2 0).2).length ≤ 1 := by
  have h : nan_check sample_B2 = true := by decide
  have hc : (fresh "imu").lastGoodIMURecord = none := rfl
  rw [read_IMU_skip _ _ _ h hc]
  simp [h, hc, warnings, warn_invalid, warn_no_previous]

/-- C6 (amended): one invocation of `read_IMU` emits no warning when the record is
valid, exactly one when it is invalid and the cache holds a record, and exactly two
when it is invalid and the cache is empty; so at most two, and it emits no log
entry of another level. -/
theorem C6_warning_count (self : LSM9DS1) (r : IMURecord) (now : Time) :
    warnings (read_IMU self r now).2 =
        (if nan_check r = false then []
         else if self.lastGoodIMURecord.isSome = true then
           ["Invalid sensor readings detected. Using previous values."]
         else
           ["Invalid sensor readings detected. Using previous values.",
            "No valid previous sensor readings available."]) ∧
      (warnings (read_IMU self r now).2).length ≤ 2 ∧
      (∀ l t a, Effect.log l t a ∈ (read_IMU self r now).2 → l = Level.warn) := by
  cases h : nan_check r
  · simp [read_IMU_valid self r now h, warnings]
  · cases hc : self.lastGoodIMURecord with
    | none =>
      simp [read_IMU_skip self r now h hc, warnings, warn_invalid, warn_no_previous]
      rintro l t a (⟨h1, -, -⟩ | ⟨h1, -, -⟩) <;> exact h1
    | some g =>
      simp [read_IMU_fallback self r g now h hc, warnings, warn_invalid]
      intro l t a h1 _ _
      exact h1

/-- The NaN check spelled out over the six fields it reads. -/
theorem nan_check_iff (r : IMURecord) :
    nan_check r = true ↔
      (r.raw_linear_acceleration.x.isnan = true ∨ r.raw_linear_acceleration.y.isnan = true ∨
       r.raw_linear_acceleration.z.isnan = true ∨ r.raw_angular_velocity.x.isnan = true ∨
       r.raw_angular_velocity.y.isnan = true ∨ r.raw_angular_velocity.z.isnan = true) := by
  simp [nan_check, or_assoc]

/-- The NaN check reads nothing but the two vectors. -/
theorem nan_check_congr (r r' : IMURecord)
    (ha : r.raw_linear_acceleration = r'.raw_linear_acceleration)
    (hg : r.raw_angular_velocity = r'.raw_angular_velocity) :
    nan_check r = nan_check r' := by
  simp [nan_check, ha, hg]

/-- The conversion reads nothing but the two vectors. -/
theorem conversion_congr (r r' : IMURecord) (now : Time)
    (ha : r.raw_linear_acceleration = r'.raw_linear_acceleration)
    (hg : r.raw_angular_velocity = r'.raw_angular_velocity) :
    conversion r now = conversion r' now := by
  simp [conversion, ha, hg]

/-- The warnings of one cycle. -/
theorem read_IMU_warnings (self : LSM9DS1) (r : IMURecord) (now : Time) :
    warnings (read_IMU self r now).2 =
      if nan_check r = true then
        match self.lastGoodIMURecord with
        | some _ => ["Invalid sensor readings detected. Using previous values."]
        | none => ["Invalid sensor readings detected. Using previous values.",
                   "No valid previous sensor readings available."]
      else [] := by
  cases h : nan_check r
  · simp [read_IMU_valid self r now h, warnings]
  · cases hc : self.lastGoodIMURecord with
    | none => simp [read_IMU_skip self r now h hc, warnings, warn_invalid, warn_no_previous]
    | some g => simp [read_IMU_fallback self r g now h hc, warnings, warn_invalid]

/-- An infinity is not a NaN. -/
theorem isnan_of_isinf (d : Double) (h : d.isinf = true) : d.isnan = false := by
  simp only [Double.isinf, Bool.and_eq_true, beq_iff_eq] at h
  simp [Double.isnan, h.2]

/-- C7: `read_IMU` takes its invalid branch (and logs the warning of line 88)
exactly when one of the six scalars raw_linear_acceleration.x, y, z,
raw_angular_velocity.x, y, z is NaN; two records that agree on these six scalars
are classified alike and give the same warnings and the same published message,
whatever their other fields; and a record with an infinity but no NaN among the six
is classified valid: no warning, the record is cached and published. -/
theorem C7_validity_test (self : LSM9DS1) (r r' : IMURecord) (now : Time) :
    ((nan_check r = true ∧
        Effect.log Level.warn "Invalid sensor readings detected. Using previous values." []
          ∈ (read_IMU self r now).2) ↔
      (r.raw_linear_acceleration.x.isnan = true ∨ r.raw_linear_acceleration.y.isnan = true ∨
       r.raw_linear_acceleration.z.isnan = true ∨ r.raw_angular_velocity.x.isnan = true ∨
       r.raw_angular_velocity.y.isnan = true ∨ r.raw_angular_velocity.z.isnan = true)) ∧
    (r.raw_linear_acceleration = r'.raw_linear_acceleration →
      r.raw_angular_velocity = r'.raw_angular_velocity →
        nan_check r = nan_check r' ∧
        warnings (read_IMU self r now).2 = warnings (read_IMU self r' now).2 ∧
        published (read_IMU self r now).2 = published (read_IMU self r' now).2) ∧
    ((r.raw_linear_acceleration.x.isinf = true ∨ r.raw_linear_acceleration.y.isinf = true ∨
       r.raw_linear_acceleration.z.isinf = true ∨ r.raw_angular_velocity.x.isinf = true ∨
       r.raw_angular_velocity.y.isinf = true ∨ r.raw_angular_velocity.z.isinf = true) →
      (r.raw_linear_acceleration.x.isnan = false ∧ r.raw_linear_acceleration.y.isnan = false ∧
       r.raw_linear_acceleration.z.isnan = false ∧ r.raw_angular_velocity.x.isnan = false ∧
       r.raw_angular_velocity.y.isnan = false ∧ r.raw_angular_velocity.z.isnan = false) →
        nan_check r = false ∧ warnings (read_IMU self r now).2 = [] ∧
        (read_IMU self r now).1.lastGoodIMURecord = some r ∧
        published (read_IMU self r now).2 = [conversion r now]) := by
  refine ⟨?_, ?_, ?_⟩
  · rw [← nan_check_iff]
    constructor
    · exact fun h => h.1
    · intro h
      refine ⟨h, ?_⟩
      cases hc : self.lastGoodIMURecord with
      | none => simp [read_IMU_skip self r now h hc, warn_invalid]
      | some g => simp [read_IMU_fallback self r g now h hc, warn_invalid]
  · intro ha hg
    have hn := nan_check_congr r r' ha hg
    refine ⟨hn, ?_, ?_⟩
    · rw [read_IMU_warnings, read_IMU_warnings, hn]
    · rw [read_IMU_published, read_IMU_published, hn, conversion_congr r r' now ha hg]
  · intro _ hn
    have h : nan_check r = false := by
      simp [nan_check, hn.1, hn.2.1, hn.2.2.1, hn.2.2.2.1, hn.2.2.2.2.1, hn.2.2.2.2.2]
    refine ⟨h, ?_, ?_, ?_⟩
    · rw [read_IMU_warnings]; simp [h]
    · rw [read_IMU_cache]; simp [h]
    · rw [read_IMU_published]; simp [h]

/-- C7 on concrete records: sample A and sample A with a NaN magnetometer agree on
the six scalars, differ as records and publish the same message; a record with
infinities and no NaN is cached and published without a warning. -/
theorem C7_validity_test_witness :
    sample_A ≠ sample_A_mag ∧
    published (read_IMU (fresh "imu") sample_A 3).2 =
      published (read_IMU (fresh "imu") sample_A_mag 3).2 ∧
    sample_inf.raw_linear_acceleration.x.isinf = true ∧
    warnings (read_IMU (fresh "imu") sample_inf 3).2 = [] ∧
    (read_IMU (fresh "imu") sample_inf 3).1.lastGoodIMURecord = some sample_inf := by
  have hA := (C7_validity_test (fresh "imu") sample_A sample_A_mag 3).2.1 rfl rfl
  have hI := (C7_validity_test (fresh "imu") sample_inf sample_inf 3).2.2
    (Or.inl (by decide)) ⟨by decide, by decide, by decide, by decide, by decide, by decide⟩
  exact ⟨by decide, hA.2.2, by decide, hI.2.1, hI.2.2.1⟩

/-! ## Sequences of cycles -/

/-- Running a concatenation is running the parts one after the other. -/
theorem run_append (self : LSM9DS1) (xs ys : List (IMURecord × Time)) :
    run self (xs ++ ys) =
      ((run (run self xs).1 ys).1, (run self xs).2 ++ (run (run self xs).1 ys).2) := by
  induction xs generalizing self with
  | nil => simp [run]
  | cons p xs ih =>
    obtain ⟨r, now⟩ := p
    simp [run, ih]

/-- One list of effects per cycle. -/
theorem run_length (self : LSM9DS1) (xs : List (IMURecord × Time)) :
    (run self xs).2.length = xs.length := by
  induction xs generalizing self with
  | nil => simp [run]
  | cons p xs ih =>
    obtain ⟨r, now⟩ := p
    simp [run, ih]

/-- A cached record survives any number of invalid records. -/
theorem run_cache_of_invalid (self : LSM9DS1) (xs : List (IMURecord × Time))
    (h : ∀ p ∈ xs, nan_check p.1 = true) :
    (run self xs).1.lastGoodIMURecord = self.lastGoodIMURecord := by
  induction xs generalizing self with
  | nil => simp [run]
  | cons p xs ih =>
    obtain ⟨r, now⟩ := p
    have hr : nan_check r = true := h (r, now) (List.mem_cons_self _ _)
    have hxs : ∀ q ∈ xs, nan_check q.1 = true := fun q hq => h q (List.mem_cons_of_mem _ hq)
    simp only [run]
    rw [ih _ hxs, read_IMU_cache]
    simp [hr]

/-- The cache after a valid record followed by invalid ones is that valid record. -/
theorem run_cache_last_valid (self : LSM9DS1) (before after : List (IMURecord × Time))
    (g : IMURecord) (tg : Time) (hg : nan_check g = false)
    (hafter : ∀ p ∈ after, nan_check p.1 = true) :
    (run self (before ++ (g, tg) :: after)).1.lastGoodIMURecord = some g := by
  rw [run_append]
  simp only [run]
  rw [run_cache_of_invalid _ _ hafter, read_IMU_cache]
  simp [hg]

/-- A present cache stays present. -/
theorem run_cache_isSome (self : LSM9DS1) (xs : List (IMURecord × Time))
    (h : self.lastGoodIMURecord.isSome = true) :
    (run self xs).1.lastGoodIMURecord.isSome = true := by
  induction xs generalizing self with
  | nil => simpa [run] using h
  | cons p xs ih =>
    obtain ⟨r, now⟩ := p
    simp only [run]
    apply ih
    rw [read_IMU_cache]
    cases hr : nan_check r <;> simp [h]

/-- With a present cache every cycle publishes exactly one message. -/
theorem run_publishes_one (self : LSM9DS1) (xs : List (IMURecord × Time))
    (h : self.lastGoodIMURecord.isSome = true) :
    ∀ es ∈ (run self xs).2, (published es).length = 1 := by
  induction xs generalizing self with
  | nil => simp [run]
  | cons p xs ih =>
    obtain ⟨r, now⟩ := p
    have hnext : (read_IMU self r now).1.lastGoodIMURecord.isSome = true := by
      rw [read_IMU_cache]
      cases hr : nan_check r <;> simp [h]
    intro es hes
    simp only [run, List.mem_cons] at hes
    rcases hes with rfl | hes
    · rw [read_IMU_published]
      cases hr : nan_check r
      · simp
      · cases hc : self.lastGoodIMURecord with
        | none => simp [hc] at h
        | some g => simp
    · exact ih _ hnext es hes

/-- Invariant of the loop: if the cached record (if any) satisfies P and so does every
valid input, then the final cached record satisfies P and every published message
is the conversion of a record satisfying P. -/
theorem run_invariant (P : IMURecord → Prop) (self : LSM9DS1)
    (xs : List (IMURecord × Time))
    (hs : ∀ g, self.lastGoodIMURecord = some g → P g)
    (hx : ∀ p ∈ xs, nan_check p.1 = false → P p.1) :
    (∀ g, (run self xs).1.lastGoodIMURecord = some g → P g) ∧
    (∀ es ∈ (run self xs).2, ∀ msg ∈ published es, ∃ g now, P g ∧ msg = conversion g now) := by
  induction xs generalizing self with
  | nil => simpa [run] using hs
  | cons p xs ih =>
    obtain ⟨r, now⟩ := p
    have hxs : ∀ q ∈ xs, nan_check q.1 = false → P q.1 :=
      fun q hq => hx q (List.mem_cons_of_mem _ hq)
    have hr : nan_check r = false → P r := hx (r, now) (List.mem_cons_self _ _)
    have hnext : ∀ g, (read_IMU self r now).1.lastGoodIMURecord = some g → P g := by
      intro g
      rw [read_IMU_cache]
      cases hn : nan_check r
      · simp only [Bool.false_eq_true, if_false, Option.some.injEq]
        rintro rfl
        exact hr hn
      · simpa using hs g
    obtain ⟨ih1, ih2⟩ := ih (read_IMU self r now).1 hnext hxs
    refine ⟨by simpa [run] using ih1, ?_⟩
    intro es hes
    simp only [run, List.mem_cons] at hes
    rcases hes with rfl | hes
    · intro msg hmsg
      rw [read_IMU_published] at hmsg
      cases hn : nan_check r
      · simp only [hn, Bool.false_eq_true, if_false, List.mem_singleton] at hmsg
        exact ⟨r, now, hr hn, hmsg⟩
      · cases hc : self.lastGoodIMURecord with
        | none => simp [hn, hc] at hmsg
        | some g =>
          simp only [hn, hc, if_true, List.mem_singleton] at hmsg
          exact ⟨g, now, hs g hc, hmsg⟩
    · exact ih2 es hes

/-- C2: after any sequence of cycles in which the record g was the most recent valid
one (g valid, every record after it invalid), a cycle whose raw record has a NaN
among the six checked fields publishes exactly one message, the conversion of g
(linear acceleration copied, angular velocity times `M_PI / 180.0`); any other
invalid raw record in that cycle gives the same message. This holds from every
starting object, in particular from one with an empty cache. -/
theorem C2_fallback_uses_last_valid (self : LSM9DS1)
    (before after : List (IMURecord × Time)) (g : IMURecord) (tg : Time)
    (r r' : IMURecord) (now : Time)
    (hg : nan_check g = false) (hafter : ∀ p ∈ after, nan_check p.1 = true)
    (hr : nan_check r = true) (hr' : nan_check r' = true) :
    ∃ msg, published (read_IMU (run self (before ++ (g, tg) :: after)).1 r now).2 = [msg] ∧
      msg.linear_acceleration = g.raw_linear_acceleration ∧
      msg.angular_velocity.x = Double.mul g.raw_angular_velocity.x (Double.div M_PI lit_180_0) ∧
      msg.angular_velocity.y = Double.mul g.raw_angular_velocity.y (Double.div M_PI lit_180_0) ∧
      msg.angular_velocity.z = Double.mul g.raw_angular_velocity.z (Double.div M_PI lit_180_0) ∧
      published (read_IMU (run self (before ++ (g, tg) :: after)).1 r' now).2 = [msg] := by
  have hc := run_cache_last_valid self before after g tg hg hafter
  refine ⟨conversion g now, ?_, rfl, rfl, rfl, rfl, ?_⟩
  · rw [read_IMU_published]; simp [hr, hc]
  · rw [read_IMU_published]; simp [hr', hc]

/-- C2 at Scenario B: from an empty cache, cycle 1 reads accel (1, 0, 9.8), gyro
(0, 0, 0) and cycle 2 reads accel (NaN, 0, 9.8); cycle 2 publishes linear
acceleration (1, 0, 9.8), the conversion of the cycle-1 record. -/
theorem C2_fallback_uses_last_valid_witness :
    (fresh "imu").lastGoodIMURecord = none ∧
    nan_check sample_B1 = false ∧ nan_check sample_B2 = true ∧
    ∃ msg, published (read_IMU (run (fresh "imu") [(sample_B1, 1)]).1 sample_B2 2).2 = [msg] ∧
      msg.linear_acceleration = ⟨lit_1_0, lit_0_0, lit_9_8⟩ := by
  refine ⟨rfl, by decide, by decide, ?_⟩
  obtain ⟨msg, hp, ha, _⟩ :=
    C2_fallback_uses_last_valid (fresh "imu") [] [] sample_B1 1 sample_B2 sample_B2 2
      (by decide) (by simp) (by decide) (by decide)
  exact ⟨msg, hp, ha⟩

/-- C8: the cache is never cleared: if it is present after some cycles it is present
after any further cycles; and from the first valid raw record on, that cycle and
every later one publish exactly one message, however many later records are
invalid. -/
theorem C8_cache_never_cleared (self : LSM9DS1)
    (before after more : List (IMURecord × Time)) (g : IMURecord) (tg : Time) :
    ((run self before).1.lastGoodIMURecord.isSome = true →
      (run self (before ++ more)).1.lastGoodIMURecord.isSome = true) ∧
    (nan_check g = false →
      (run self (before ++ (g, tg) :: after)).2 =
          (run self before).2 ++ (run (run self before).1 ((g, tg) :: after)).2 ∧
      (run self (before ++ (g, tg) :: after)).1.lastGoodIMURecord.isSome = true ∧
      ∀ es ∈ (run (run self before).1 ((g, tg) :: after)).2, (published es).length = 1) := by
  refine ⟨?_, ?_⟩
  · intro h
    rw [run_append]
    exact run_cache_isSome _ _ h
  · intro hg
    have h1 : (read_IMU (run self before).1 g tg).1.lastGoodIMURecord.isSome = true := by
      rw [read_IMU_cache]; simp [hg]
    refine ⟨by rw [run_append], ?_, ?_⟩
    · rw [run_append]
      simp only [run]
      exact run_cache_isSome _ _ h1
    · intro es hes
      simp only [run, List.mem_cons] at hes
      rcases hes with rfl | hes
      · rw [read_IMU_published]; simp [hg]
      · exact run_publishes_one _ _ h1 es hes

/-- C8 on a concrete run from an empty cache: an invalid record, then a valid one,
then two invalid ones: the cache is present at the end and the last three cycles
publish one message each. -/
theorem C8_cache_never_cleared_witness :
    nan_check sample_B1 = false ∧
    (run (fresh "imu")
      ([(sample_B2, 0)] ++ (sample_B1, 1) :: [(sample_B2, 2), (sample_B2, 3)])).1.lastGoodIMURecord.isSome
        = true ∧
    ((run (run (fresh "imu") [(sample_B2, 0)]).1
      ((sample_B1, 1) :: [(sample_B2, 2), (sample_B2, 3)])).2.map
        (fun es => (published es).length)) = [1, 1, 1] := by
  have h := (C8_cache_never_cleared (fresh "imu") [(sample_B2, 0)]
    [(sample_B2, 2), (sample_B2, 3)] [] sample_B1 1).2 (by decide)
  refine ⟨by decide, h.2.1, ?_⟩
  have hl := run_length (run (fresh "imu") [(sample_B2, 0)]).1
    ((sample_B1, 1) :: [(sample_B2, 2), (sample_B2, 3)])
  have h3 := h.2.2
  generalize (run (run (fresh "imu") [(sample_B2, 0)]).1
      ((sample_B1, 1) :: [(sample_B2, 2), (sample_B2, 3)])).2 = l at hl h3
  match l, hl, h3 with
  | [a, b, c], _, h3 =>
    simp [h3 a (by simp), h3 b (by simp), h3 c (by simp)]

/-- C10: in every run from an empty cache, a cached record has no NaN among its six
checked fields and is one of the raw records read; every published message is the
conversion of a raw record of the run that passed the NaN check; and no published
message has a NaN linear acceleration component. -/
theorem C10_cache_is_valid (self : LSM9DS1) (inputs : List (IMURecord × Time))
    (h0 : self.lastGoodIMURecord = none) :
    (∀ g, (run self inputs).1.lastGoodIMURecord = some g →
      (∃ p ∈ inputs, p.1 = g) ∧
      g.raw_linear_acceleration.x.isnan = false ∧ g.raw_linear_acceleration.y.isnan = false ∧
      g.raw_linear_acceleration.z.isnan = false ∧ g.raw_angular_velocity.x.isnan = false ∧
      g.raw_angular_velocity.y.isnan = false ∧ g.raw_angular_velocity.z.isnan = false) ∧
    (∀ es ∈ (run self inputs).2, ∀ msg ∈ published es,
      (∃ p ∈ inputs, nan_check p.1 = false ∧
        msg.linear_acceleration = p.1.raw_linear_acceleration ∧
        msg.angular_velocity.x =
          Double.mul p.1.raw_angular_velocity.x (Double.div M_PI lit_180_0) ∧
        msg.angular_velocity.y =
          Double.mul p.1.raw_angular_velocity.y (Double.div M_PI lit_180_0) ∧
        msg.angular_velocity.z =
          Double.mul p.1.raw_angular_velocity.z (Double.div M_PI lit_180_0)) ∧
      msg.linear_acceleration.x.isnan = false ∧ msg.linear_acceleration.y.isnan = false ∧
      msg.linear_acceleration.z.isnan = false) := by
  have six : ∀ g : IMURecord, nan_check g = false →
      g.raw_linear_acceleration.x.isnan = false ∧ g.raw_linear_acceleration.y.isnan = false ∧
      g.raw_linear_acceleration.z.isnan = false ∧ g.raw_angular_velocity.x.isnan = false ∧
      g.raw_angular_velocity.y.isnan = false ∧ g.raw_angular_velocity.z.isnan = false := by
    intro g hg
    simpa [nan_check, and_assoc] using hg
  obtain ⟨h1, h2⟩ := run_invariant
    (fun g => nan_check g = false ∧ ∃ p ∈ inputs, p.1 = g) self inputs
    (by intro g hg; rw [h0] at hg; cases hg)
    (fun p hp hv => ⟨hv, p, hp, rfl⟩)
  refine ⟨fun g hg => ⟨(h1 g hg).2, six g (h1 g hg).1⟩, ?_⟩
  intro es hes msg hmsg
  obtain ⟨g, now, ⟨hv, p, hp, rfl⟩, rfl⟩ := h2 es hes msg hmsg
  have h6 := six p.1 hv
  exact ⟨⟨p, hp, hv, rfl, rfl, rfl, rfl⟩, h6.1, h6.2.1, h6.2.2.1⟩

/-- C10 on a concrete run from an empty cache (invalid, valid, invalid): the record
cached at the end is the valid one and has no NaN among its six fields. -/
theorem C10_cache_is_valid_witness :
    (fresh "imu").lastGoodIMURecord = none ∧
    (run (fresh "imu") [(sample_B2, 0), (sample_B1, 1), (sample_B2, 2)]).1.lastGoodIMURecord
      = some sample_B1 ∧
    sample_B1.raw_linear_acceleration.x.isnan = false ∧
    sample_B1.raw_angular_velocity.z.isnan = false := by
  have hc : (run (fresh "imu")
      [(sample_B2, 0), (sample_B1, 1), (sample_B2, 2)]).1.lastGoodIMURecord = some sample_B1 :=
    run_cache_last_valid (fresh "imu") [(sample_B2, 0)] [(sample_B2, 2)] sample_B1 1
      (by decide) (by simp; decide)
  have h := (C10_cache_is_valid (fresh "imu")
    [(sample_B2, 0), (sample_B1, 1), (sample_B2, 2)] rfl).1 sample_B1 hc
  exact ⟨rfl, hc, h.2.1, h.2.2.2.2.2.2⟩

/-! ## Start-up -/

/-- Truncating division of 1000 by a nonzero integer: the remainder is non-negative
and smaller than the divisor in absolute value, and the sign facts of the
quotient. -/
theorem tdiv_1000_spec (f : Int) (hf : f ≠ 0) :
    (0 ≤ 1000 - Int.tdiv 1000 f * f ∧ 1000 - Int.tdiv 1000 f * f < |f|) ∧
    (1 ≤ Int.tdiv 1000 f ↔ 1 ≤ f ∧ f ≤ 1000) ∧
    (1000 < f → Int.tdiv 1000 f = 0) ∧
    (f < 0 → Int.tdiv 1000 f ≤ 0) := by
  rcases lt_or_gt_of_ne hf with hneg | hpos
  · obtain ⟨g, rfl⟩ : ∃ g, f = -g := ⟨-f, by simp⟩
    have hg : 0 < g := by omega
    rw [Int.tdiv_neg, Int.tdiv_eq_ediv (by decide) hg.le]
    have h1 := Int.emod_add_ediv 1000 g
    have h2 := Int.emod_lt_of_pos 1000 hg
    have h3 := Int.emod_nonneg 1000 hg.ne'
    have h4 : 0 ≤ 1000 / g := Int.ediv_nonneg (by decide) hg.le
    rw [abs_neg, abs_of_pos hg]
    refine ⟨⟨?_, ?_⟩, ?_, ?_, ?_⟩
    · nlinarith
    · nlinarith
    · constructor
      · intro h; omega
      · intro h; omega
    · intro h; omega
    · intro _; omega
  · have hg : 0 < f := hpos
    rw [Int.tdiv_eq_ediv (by decide) hg.le]
    have h1 := Int.emod_add_ediv 1000 f
    have h2 := Int.emod_lt_of_pos 1000 hg
    have h3 := Int.emod_nonneg 1000 hg.ne'
    rw [abs_of_pos hg]
    refine ⟨⟨?_, ?_⟩, ?_, ?_, ?_⟩
    · nlinarith
    · nlinarith
    · rw [Int.le_ediv_iff_mul_le hg]
      constructor
      · intro h; omega
      · intro h; omega
    · intro h; exact Int.ediv_eq_zero_of_lt (by decide) h
    · intro h; omega

/-- A value in the range of int is unchanged by the conversion of line 41. -/
theorem narrow_int_of_range (x : Int) (h : -2147483648 ≤ x ∧ x ≤ 2147483647) :
    narrow_int x = x := by
  unfold narrow_int
  omega

/-- The conversion of line 41 always lands in the range of int. -/
theorem narrow_int_range (x : Int) :
    -2147483648 ≤ narrow_int x ∧ narrow_int x ≤ 2147483647 := by
  unfold narrow_int
  omega

/-- When the int of line 41 is 0 and the driver does not fail, start-up throws the
runtime error after the device calls and before any middleware call. -/
theorem initialize_handler_zero (driver_ok : DeviceCall → Bool)
    (middleware_ok : MiddlewareCall → Bool) (self : LSM9DS1)
    (params : Params) (hd : ∀ c, driver_ok c = true) (hf : narrow_int params.frequency = 0) :
    (initialize_handler driver_ok middleware_ok self params).1 =
        some (Exception.runtime_error "error: frequency cannot be 0\n") ∧
      (initialize_handler driver_ok middleware_ok self params).2.1.publisher_ = self.publisher_ ∧
      (initialize_handler driver_ok middleware_ok self params).2.1.timer_ = self.timer_ := by
  simp [initialize_handler, hd, hf, Id.run]

/-- When the int of line 41 is nonzero and neither the driver nor the two middleware
calls fail, start-up completes and creates the publisher and the timer. -/
theorem initialize_handler_nonzero (driver_ok : DeviceCall → Bool)
    (middleware_ok : MiddlewareCall → Bool) (self : LSM9DS1)
    (params : Params) (hd : ∀ c, driver_ok c = true) (hf : narrow_int params.frequency ≠ 0)
    (hp : middleware_ok (MiddlewareCall.create_publisher (self.imu_name_ ++ "/imu") 10) = true)
    (ht : middleware_ok
      (MiddlewareCall.create_wall_timer (Int.tdiv 1000 (narrow_int params.frequency))) = true) :
    (initialize_handler driver_ok middleware_ok self params).1 = none ∧
      (initialize_handler driver_ok middleware_ok self params).2.1.publisher_ =
        some { topic := self.imu_name_ ++ "/imu", depth := 10 } ∧
      (initialize_handler driver_ok middleware_ok self params).2.1.timer_ =
        some { period_ms := Int.tdiv 1000 (narrow_int params.frequency) } := by
  simp [initialize_handler, hd, hf, hp, ht, Id.run]

/-- When the int of line 41 is nonzero, the driver and `create_publisher` do not fail
and `create_wall_timer` does, that failure leaves `initialize` and carries the
period that was passed; no timer is created. -/
theorem initialize_handler_timer_refused (driver_ok : DeviceCall → Bool)
    (middleware_ok : MiddlewareCall → Bool) (self : LSM9DS1)
    (params : Params) (hd : ∀ c, driver_ok c = true) (hf : narrow_int params.frequency ≠ 0)
    (hp : middleware_ok (MiddlewareCall.create_publisher (self.imu_name_ ++ "/imu") 10) = true)
    (ht : middleware_ok
      (MiddlewareCall.create_wall_timer (Int.tdiv 1000 (narrow_int params.frequency))) = false) :
    (initialize_handler driver_ok middleware_ok self params).1 =
        some (Exception.middleware_failure
          (MiddlewareCall.create_wall_timer (Int.tdiv 1000 (narrow_int params.frequency)))) ∧
      (initialize_handler driver_ok middleware_ok self params).2.1.timer_ = self.timer_ := by
  simp [initialize_handler, hd, hf, hp, ht, Id.run]

/-- C5 (claim as stated fails): with every driver and middleware call succeeding, the
nonzero configured frequency 2^32 becomes the int 0 on line 41 and `initialize`
throws the runtime error; and with a middleware that refuses a negative timer
period, the nonzero frequency -5 makes `initialize` fail in `create_wall_timer`
(period -200 ms) without creating the timer. -/
theorem C5_counterexample :
    (params_with 4294967296).frequency ≠ 0 ∧
    (initialize_handler (fun _ => true) (fun _ => true) (fresh "imu")
        (params_with 4294967296)).1 =
      some (Exception.runtime_error "error: frequency cannot be 0\n") ∧
    (params_with (-5)).frequency ≠ 0 ∧
    (initialize_handler (fun _ => true) refuses_negative_period (fresh "imu")
        (params_with (-5))).1 =
      some (Exception.middleware_failure (MiddlewareCall.create_wall_timer (-200))) ∧
    (initialize_handler (fun _ => true) refuses_negative_period (fresh "imu")
        (params_with (-5))).2.1.timer_ = none := by
  have h1 := initialize_handler_zero (fun _ => true) (fun _ => true) (fresh "imu")
    (params_with 4294967296) (fun _ => rfl) (by decide)
  have h2 := initialize_handler_timer_refused (fun _ => true) refuses_negative_period
    (fresh "imu") (params_with (-5)) (fun _ => rfl) (by decide) rfl (by decide)
  exact ⟨by decide, h1.1, by decide, h2.1, h2.2⟩

/-- C5 (amended): when the device driver calls and the middleware calls
`create_publisher` and `create_wall_timer` do not fail and the configured
frequency is within the range of a C++ int, `initialize` throws (and then it is the
runtime error of line 73) exactly when the configured frequency is 0; when it
throws, the publisher and the timer are as before the call, so after the
constructor both are null and no timer exists to invoke `read_IMU`; for every
nonzero frequency of that range, negative ones included, it completes and has
created the publisher and the timer. -/
theorem C5_frequency_zero_is_fatal (driver_ok : DeviceCall → Bool)
    (middleware_ok : MiddlewareCall → Bool) (name_ : String)
    (self : LSM9DS1) (params : Params) (hd : ∀ c, driver_ok c = true)
    (hm : ∀ c, middleware_ok c = true)
    (hr : -2147483648 ≤ params.frequency ∧ params.frequency ≤ 2147483647) :
    ((initialize_handler driver_ok middleware_ok self params).1.isSome = true ↔
      params.frequency = 0) ∧
    ((initialize_handler driver_ok middleware_ok self params).1 =
        some (Exception.runtime_error "error: frequency cannot be 0\n") ↔
      params.frequency = 0) ∧
    (params.frequency = 0 →
      (initialize_handler driver_ok middleware_ok self params).2.1.publisher_ =
        self.publisher_ ∧
      (initialize_handler driver_ok middleware_ok self params).2.1.timer_ = self.timer_ ∧
      (construct driver_ok middleware_ok name_ params).1 =
        some (Exception.runtime_error "error: frequency cannot be 0\n") ∧
      (construct driver_ok middleware_ok name_ params).2.1.publisher_ = none ∧
      (construct driver_ok middleware_ok name_ params).2.1.timer_ = none) ∧
    (params.frequency ≠ 0 →
      (initialize_handler driver_ok middleware_ok self params).1 = none ∧
      (initialize_handler driver_ok middleware_ok self params).2.1.publisher_.isSome = true ∧
      (initialize_handler driver_ok middleware_ok self params).2.1.timer_.isSome = true) := by
  have hn := narrow_int_of_range params.frequency hr
  by_cases hf : params.frequency = 0
  · have hf' : narrow_int params.frequency = 0 := by rw [hn]; exact hf
    have h := initialize_handler_zero driver_ok middleware_ok self params hd hf'
    have hc := initialize_handler_zero driver_ok middleware_ok
      (declare_ROS_params (fresh name_)).1 params hd hf'
    refine ⟨by simp [h.1, hf], by simp [h.1, hf], fun _ => ⟨h.2.1, h.2.2, ?_, ?_, ?_⟩,
      fun hne => absurd hf hne⟩
    · simpa [construct] using hc.1
    · simpa [construct, declare_ROS_params, fresh] using hc.2.1
    · simpa [construct, declare_ROS_params, fresh] using hc.2.2
  · have hf' : narrow_int params.frequency ≠ 0 := by rw [hn]; exact hf
    have h := initialize_handler_nonzero driver_ok middleware_ok self params hd hf'
      (hm _) (hm _)
    refine ⟨by simp [h.1, hf], by simp [h.1, hf], fun h0 => absurd h0 hf, fun _ => ⟨h.1, ?_, ?_⟩⟩
    · simp [h.2.1]
    · simp [h.2.2]

/-- C5 (amended) on concrete parameters: with frequency 0 the constructor throws the
runtime error and leaves no timer; with frequency -5 and a middleware that accepts
every call `initialize` completes with a timer. -/
theorem C5_frequency_zero_is_fatal_witness :
    (-2147483648 ≤ (params_with 0).frequency ∧ (params_with 0).frequency ≤ 2147483647) ∧
    (-2147483648 ≤ (params_with (-5)).frequency ∧
      (params_with (-5)).frequency ≤ 2147483647) ∧
    (construct (fun _ => true) (fun _ => true) "imu" (params_with 0)).1 =
      some (Exception.runtime_error "error: frequency cannot be 0\n") ∧
    (construct (fun _ => true) (fun _ => true) "imu" (params_with 0)).2.1.timer_ = none ∧
    (initialize_handler (fun _ => true) (fun _ => true) (fresh "imu")
      (params_with (-5))).1 = none ∧
    (initialize_handler (fun _ => true) (fun _ => true) (fresh "imu")
      (params_with (-5))).2.1.timer_.isSome = true := by
  have hz := (C5_frequency_zero_is_fatal (fun _ => true) (fun _ => true) "imu" (fresh "imu")
    (params_with 0) (fun _ => rfl) (fun _ => rfl) (by decide)).2.2.1 rfl
  have hn := (C5_frequency_zero_is_fatal (fun _ => true) (fun _ => true) "imu" (fresh "imu")
    (params_with (-5)) (fun _ => rfl) (fun _ => rfl) (by decide)).2.2.2 (by decide)
  exact ⟨by decide, by decide, hz.2.2.1, hz.2.2.2.2, hn.1, hn.2.2⟩

/-- C9 (claim as stated fails): the nonzero configured frequency 2^32 + 100 is above
1000, so 1000 / f truncated is 0, but line 41 stores it as the int 100 and the
timer is created with a period of 10 ms. -/
theorem C9_counterexample :
    (params_with 4294967396).frequency ≠ 0 ∧
    1000 < (params_with 4294967396).frequency ∧
    Int.tdiv 1000 (params_with 4294967396).frequency = 0 ∧
    (initialize_handler (fun _ => true) (fun _ => true) (fresh "imu")
        (params_with 4294967396)).1 = none ∧
    (initialize_handler (fun _ => true) (fun _ => true) (fresh "imu")
        (params_with 4294967396)).2.1.timer_ = some { period_ms := 10 } := by
  have h := initialize_handler_nonzero (fun _ => true) (fun _ => true) (fresh "imu")
    (params_with 4294967396) (fun _ => rfl) (by decide) rfl rfl
  exact ⟨by decide, by decide, by decide, h.1, h.2.2⟩

/-- C9 (amended): for a nonzero configured frequency f within the range of a C++ int
(driver calls and `create_publisher` not failing) the period passed to
`create_wall_timer` is q = 1000 / f in C++ int division, that is truncated toward
zero: the remainder 1000 - q * f is non-negative and smaller than the absolute
value of f. If the middleware accepts that call the timer has period q, otherwise
the failure of `create_wall_timer q` leaves `initialize`. f = 100 gives 10 ms and
f = 3 gives 333 ms; q is at least 1 exactly when 1 <= f <= 1000, is 0 for
f > 1000 and is non-positive for negative f. -/
theorem C9_timer_period (driver_ok : DeviceCall → Bool)
    (middleware_ok : MiddlewareCall → Bool) (self : LSM9DS1) (params : Params)
    (hd : ∀ c, driver_ok c = true)
    (hp : middleware_ok (MiddlewareCall.create_publisher (self.imu_name_ ++ "/imu") 10) = true)
    (hr : -2147483648 ≤ params.frequency ∧ params.frequency ≤ 2147483647)
    (hf : params.frequency ≠ 0) :
    ∃ q : Int,
      q = Int.tdiv 1000 params.frequency ∧
      (middleware_ok (MiddlewareCall.create_wall_timer q) = true →
        (initialize_handler driver_ok middleware_ok self params).1 = none ∧
        (initialize_handler driver_ok middleware_ok self params).2.1.timer_ =
          some { period_ms := q }) ∧
      (middleware_ok (MiddlewareCall.create_wall_timer q) = false →
        (initialize_handler driver_ok middleware_ok self params).1 =
          some (Exception.middleware_failure (MiddlewareCall.create_wall_timer q))) ∧
      (0 ≤ 1000 - q * params.frequency ∧ 1000 - q * params.frequency < |params.frequency|) ∧
      (params.frequency = 100 → q = 10) ∧
      (params.frequency = 3 → q = 333) ∧
      (1 ≤ q ↔ 1 ≤ params.frequency ∧ params.frequency ≤ 1000) ∧
      (1000 < params.frequency → q = 0) ∧
      (params.frequency < 0 → q ≤ 0) := by
  have hn := narrow_int_of_range params.frequency hr
  have hf' : narrow_int params.frequency ≠ 0 := by rw [hn]; exact hf
  have t := tdiv_1000_spec params.frequency hf
  refine ⟨Int.tdiv 1000 params.frequency, rfl, ?_, ?_, t.1, ?_, ?_, t.2.1, t.2.2.1, t.2.2.2⟩
  · intro ht
    have h := initialize_handler_nonzero driver_ok middleware_ok self params hd hf' hp
      (by rw [hn]; exact ht)
    rw [hn] at h
    exact ⟨h.1, h.2.2⟩
  · intro ht
    have h := initialize_handler_timer_refused driver_ok middleware_ok self params hd hf' hp
      (by rw [hn]; exact ht)
    rw [hn] at h
    exact h.1
  · intro h100; rw [h100]; decide
  · intro h3; rw [h3]; decide

/-- C9 (amended) on concrete parameters: frequency 100 gives a 10 ms timer. -/
theorem C9_timer_period_witness :
    (-2147483648 ≤ (params_with 100).frequency ∧ (params_with 100).frequency ≤ 2147483647) ∧
    (params_with 100).frequency ≠ 0 ∧
    (initialize_handler (fun _ => true) (fun _ => true) (fresh "imu")
      (params_with 100)).2.1.timer_ = some { period_ms := 10 } := by
  obtain ⟨q, _, hq, _, _, h100, _⟩ :=
    C9_timer_period (fun _ => true) (fun _ => true) (fresh "imu") (params_with 100)
      (fun _ => rfl) rfl (by decide) (by decide)
  have h10 : q = 10 := h100 rfl
  rw [h10] at hq
  exact ⟨by decide, by decide, (hq rfl).2⟩

end lsm9ds1
